import Mathlib

/-!
Verification development for the offline-password-safe-sync repository.

The repository's core logic is
  * an Aadhaar-document field extractor (`parseAadhaarFromJSON` together with
    the surrounding validation, in two revisions:
    `src/src/lib/aadhaarService.ts` — the "strict" revision whose
    post-processing keeps only exactly-12-digit numbers — and
    `src/unnamed/part_000` — the "tolerant" revision that also accepts
    vendor-masked numbers of length at least 8), and
  * the recovery verification protocol of
    `src/supabase/functions/verify-aadhaar-recovery/index.ts`.

This file shallowly embeds those functions over an explicit JSON tree and
proves the frozen claims about them.  Each TypeScript function is translated
to a Lean definition of the same name (suffixed with the revision where the
two files differ).
-/

namespace OfflineSafe

/-! ## JSON document model

A parsed JSON value.  JavaScript arrays never play a role in the extraction
logic (the code only reads named fields and recurses into object-typed
values), so objects are modelled as association lists of string keys.
-/

inductive Json where
  | str (s : String)
  | num (n : Int)
  | jbool (b : Bool)
  | null
  | obj (fields : List (String × Json))

/-- Property lookup `v[k]`; `none` models JavaScript `undefined`
(missing property, or property access on a primitive). -/
def Json.lookup : Json → String → Option Json
  | .obj fields, k => fields.lookup k
  | _, _ => none

/-- JavaScript truthiness of a JSON value. -/
def Json.truthy : Json → Bool
  | .str s => s ≠ ""
  | .num n => n ≠ 0
  | .jbool b => b
  | .null => false
  | .obj _ => true

/-- `getTruthy v k` models the ubiquitous `obj.k && …` / `if (obj.k)` guard:
it returns the property value only when the property exists and is truthy. -/
def getTruthy (v : Json) (k : String) : Option Json :=
  match v.lookup k with
  | some x => if x.truthy then some x else none
  | none => none

/-- JavaScript `value.toString()` for the values the extractor touches. -/
def Json.toStr : Json → String
  | .str s => s
  | .num n => toString n
  | .jbool b => if b then "true" else "false"
  | .null => "null"
  | .obj _ => "[object Object]"

/-! ## String primitives used by the TypeScript source -/

/-- The character class of the JavaScript regexp `\s` (restricted to the
ASCII range, which is all the source's data ever contains). -/
def isJsWhitespace (c : Char) : Bool :=
  c = ' ' || c = '\t' || c = '\n' || c = '\r' || c = '\x0b' || c = '\x0c'

/-- `s.replace(/\s/g, '')`. -/
def stripWs (s : String) : String :=
  String.mk (s.toList.filter (fun c => !isJsWhitespace c))

/-- `s.replace(/\D/g, '')` — keep only the decimal digits. -/
def digitsOnly (s : String) : String :=
  String.mk (s.toList.filter Char.isDigit)

/-- The character class of the JavaScript regexp `\w`. -/
def isWordChar (c : Char) : Bool :=
  c.isAlphanum || c = '_'

/-- `s.replace(/[^\w\s]/g, '')`. -/
def stripNonWordSpace (s : String) : String :=
  String.mk (s.toList.filter (fun c => isWordChar c || isJsWhitespace c))

/-- Helper for `collapseWs`: the boolean records whether the previous
character was whitespace (i.e. we are inside a run already replaced). -/
def collapseWsAux : List Char → Bool → List Char
  | [], _ => []
  | c :: rest, prevWs =>
    if isJsWhitespace c then
      if prevWs then collapseWsAux rest true
      else ' ' :: collapseWsAux rest true
    else c :: collapseWsAux rest false

/-- `s.replace(/\s+/g, ' ')` — each maximal whitespace run becomes one space. -/
def collapseWs (s : String) : String :=
  String.mk (collapseWsAux s.toList false)

/-- Does `pat` occur at the head of `s`? (plain list matching). -/
def leadsWith : List Char → List Char → Bool
  | [], _ => true
  | _ :: _, [] => false
  | p :: ps, c :: cs => p = c && leadsWith ps cs

/-- Does `pat` occur anywhere in `s`? -/
def listIncludes : List Char → List Char → Bool
  | _, [] => true
  | [], _ :: _ => false
  | c :: cs, p :: ps => leadsWith (p :: ps) (c :: cs) || listIncludes cs (p :: ps)

/-- JavaScript `s.includes(pat)`. -/
def strIncludes (s pat : String) : Bool :=
  listIncludes s.toList pat.toList

/-- JavaScript `s.toLowerCase()` (character-wise; the source's data is
ASCII, where this agrees with Unicode case mapping). -/
def jsToLower (s : String) : String :=
  String.mk (s.toList.map Char.toLower)

/-- JavaScript `s.toUpperCase()` (character-wise). -/
def jsToUpper (s : String) : String :=
  String.mk (s.toList.map Char.toUpper)

/-- JavaScript `s.trim()` — strip leading and trailing whitespace. -/
def jsTrim (s : String) : String :=
  String.mk (((s.toList.dropWhile isJsWhitespace).reverse.dropWhile isJsWhitespace).reverse)

/-- The byte length of a string's UTF-8 encoding (the `File.size` of the
uploaded text). -/
def utf8SizeJs (s : String) : Nat :=
  (s.toList.map Char.utf8Size).sum

/-! ## `normalizeGender` (identical in both revisions) -/

/-- `AadhaarService.normalizeGender`.  The TypeScript function first applies
`toString()` to its argument; callers that pass a raw JSON value are modelled
by applying `Json.toStr` at the call site. -/
def normalizeGender (gender : String) : String :=
  let g := jsTrim (jsToLower gender)
  if strIncludes g "male" && !strIncludes g "female" then "Male"
  else if strIncludes g "female" then "Female"
  else if strIncludes g "other" || strIncludes g "transgender" then "Others"
  else gender

/-! ## The extracted record

`AadhaarDetails` from both service files.  In TypeScript `name` and
`aadhaarNumber` are initialised to `''` while `dob`/`gender` start out
`undefined`; every check the code performs on these fields is a truthiness
check, for which `undefined` and `''` are indistinguishable, so all four
fields are modelled as strings with `""` standing for "not extracted". -/
structure AadhaarDetails where
  name : String
  aadhaarNumber : String
  dob : String
  gender : String
deriving DecidableEq

/-- The freshly initialised record at the top of `parseAadhaarFromJSON`. -/
def emptyDetails : AadhaarDetails := ⟨"", "", "", ""⟩

/-! ## `parseAadhaarFromJSON`, methods 1–7

The seven extraction methods are byte-for-byte identical in the two
revisions; only the post-processing block after method 7 differs. -/

/-- Method 1: the primary `KycRes.UidData` shape (`@uid`, `Poi.@name`,
`Poi.@dob`, `Poi.@gender`). -/
def method1 (data : Json) (d0 : AadhaarDetails) : AadhaarDetails :=
  match getTruthy data "KycRes" with
  | none => d0
  | some kyc =>
    match getTruthy kyc "UidData" with
    | none => d0
    | some uidData =>
      let d1 := match getTruthy uidData "@uid" with
        | some u => { d0 with aadhaarNumber := stripWs u.toStr }
        | none => d0
      match getTruthy uidData "Poi" with
      | none => d1
      | some poi =>
        let d2 := match getTruthy poi "@name" with
          | some n => { d1 with name := jsTrim (jsToUpper n.toStr) }
          | none => d1
        let d3 := match getTruthy poi "@dob" with
          | some dv => { d2 with dob := dv.toStr }
          | none => d2
        match getTruthy poi "@gender" with
        | some g => { d3 with gender := normalizeGender g.toStr }
        | none => d3

/-- Method 2: direct top-level fields (`uid`/`UID`, `name`/`Name`,
`dob`/`DOB`/`dateOfBirth`, `gender`/`Gender`). -/
def method2 (data : Json) (d : AadhaarDetails) : AadhaarDetails :=
  let d := if d.aadhaarNumber = "" then
      match getTruthy data "uid" <|> getTruthy data "UID" with
      | some v => { d with aadhaarNumber := stripWs v.toStr }
      | none => d
    else d
  let d := if d.name = "" then
      match getTruthy data "name" <|> getTruthy data "Name" with
      | some v => { d with name := jsTrim (jsToUpper v.toStr) }
      | none => d
    else d
  let d := if d.dob = "" then
      match getTruthy data "dob" <|> getTruthy data "DOB" <|> getTruthy data "dateOfBirth" with
      | some v => { d with dob := v.toStr }
      | none => d
    else d
  if d.gender = "" then
    match getTruthy data "gender" <|> getTruthy data "Gender" with
    | some v => { d with gender := normalizeGender v.toStr }
    | none => d
  else d

/-- Method 3: alternative `KycRes` shape (`UidData.uid`, `Poi.name`, …),
guarded as a whole by `!details.aadhaarNumber && data.KycRes`. -/
def method3 (data : Json) (d : AadhaarDetails) : AadhaarDetails :=
  if d.aadhaarNumber = "" then
    match getTruthy data "KycRes" with
    | none => d
    | some kycData =>
      let d := match getTruthy kycData "UidData" with
        | some ud =>
          match getTruthy ud "uid" with
          | some v => { d with aadhaarNumber := stripWs v.toStr }
          | none => d
        | none => d
      match getTruthy kycData "Poi" with
      | none => d
      | some poi =>
        let d := if d.name = "" then
            match getTruthy poi "name" with
            | some v => { d with name := jsTrim (jsToUpper v.toStr) }
            | none => d
          else d
        let d := if d.dob = "" then
            match getTruthy poi "dob" with
            | some v => { d with dob := v.toStr }
            | none => d
          else d
        if d.gender = "" then
          match getTruthy poi "gender" with
          | some v => { d with gender := normalizeGender v.toStr }
          | none => d
        else d
  else d

/-- Fills the four fields from a sub-object carrying plain
`uid`/`name`/`dob`/`gender` keys; shared body of methods 4–6 (the three
TypeScript blocks repeat this text verbatim for `cert`, `demoData` and
`printData`). -/
def fillFromPlainShape (src : Json) (d : AadhaarDetails) : AadhaarDetails :=
  let d := match getTruthy src "uid" with
    | some v => { d with aadhaarNumber := stripWs v.toStr }
    | none => d
  let d := if d.name = "" then
      match getTruthy src "name" with
      | some v => { d with name := jsTrim (jsToUpper v.toStr) }
      | none => d
    else d
  let d := if d.dob = "" then
      match getTruthy src "dob" with
      | some v => { d with dob := v.toStr }
      | none => d
    else d
  if d.gender = "" then
    match getTruthy src "gender" with
    | some v => { d with gender := normalizeGender v.toStr }
    | none => d
  else d

/-- Method 4: certificate shape, guarded by
`!details.aadhaarNumber && data.CertificateData && data.CertificateData.certificate`. -/
def method4 (data : Json) (d : AadhaarDetails) : AadhaarDetails :=
  if d.aadhaarNumber = "" then
    match getTruthy data "CertificateData" with
    | none => d
    | some cd =>
      match getTruthy cd "certificate" with
      | none => d
      | some cert => fillFromPlainShape cert d
  else d

/-- Method 5: demographic-data shape. -/
def method5 (data : Json) (d : AadhaarDetails) : AadhaarDetails :=
  if d.aadhaarNumber = "" then
    match getTruthy data "demographicData" <|> getTruthy data "DemographicData" with
    | some demoData => fillFromPlainShape demoData d
    | none => d
  else d

/-- Method 6: `PrintLetterBWPhoto` shape. -/
def method6 (data : Json) (d : AadhaarDetails) : AadhaarDetails :=
  if d.aadhaarNumber = "" then
    match getTruthy data "PrintLetterBWPhoto" <|> getTruthy data "printLetterBWPhoto" with
    | some printData => fillFromPlainShape printData d
    | none => d
  else d

/-- The identity-number check of `searchForFieldsRecursively`'s loop body:
a key containing `uid`/`aadhaar` whose string or number value digit-filters
to exactly 12 digits fills an empty `aadhaarNumber`. -/
def searchStepUid (lowerKey : String) (v : Json) (d : AadhaarDetails) : AadhaarDetails :=
  if d.aadhaarNumber = "" &&
      (strIncludes lowerKey "uid" || strIncludes lowerKey "aadhaar") then
    match v with
    | .str s =>
      if (digitsOnly s).length = 12 then { d with aadhaarNumber := digitsOnly s } else d
    | .num n =>
      if (digitsOnly (toString n)).length = 12 then
        { d with aadhaarNumber := digitsOnly (toString n) }
      else d
    | _ => d
  else d

/-- The name check of the loop body. -/
def searchStepName (lowerKey : String) (v : Json) (d : AadhaarDetails) : AadhaarDetails :=
  if d.name = "" && strIncludes lowerKey "name" then
    match v with
    | .str s =>
      if s.length > 2 && s.length < 100 then { d with name := jsTrim (jsToUpper s) } else d
    | _ => d
  else d

/-- The date-of-birth check of the loop body. -/
def searchStepDob (lowerKey : String) (v : Json) (d : AadhaarDetails) : AadhaarDetails :=
  if d.dob = "" && (strIncludes lowerKey "dob" || strIncludes lowerKey "birth") then
    match v with
    | .str s => { d with dob := s }
    | _ => d
  else d

/-- The gender check of the loop body. -/
def searchStepGender (lowerKey : String) (v : Json) (d : AadhaarDetails) : AadhaarDetails :=
  if d.gender = "" && strIncludes lowerKey "gender" then
    match v with
    | .str s => { d with gender := normalizeGender s }
    | _ => d
  else d

/-- The per-key body of `searchForFieldsRecursively`'s `for … in` loop:
the four candidate-field checks, in source order. -/
def searchStep (key : String) (v : Json) (d : AadhaarDetails) : AadhaarDetails :=
  let lowerKey := jsToLower key
  searchStepGender lowerKey v
    (searchStepDob lowerKey v (searchStepName lowerKey v (searchStepUid lowerKey v d)))

mutual

/-- Method 7's generic fallback `searchForFieldsRecursively(obj, details, depth)`:
returns immediately once `depth > 5`, otherwise walks the object's own keys,
classifying scalar values by key name and recursing into object values with
`depth + 1`. -/
def searchForFieldsRecursively (v : Json) (d : AadhaarDetails) (depth : Nat) :
    AadhaarDetails :=
  if depth > 5 then d
  else match v with
    | .obj fields => searchFields fields d depth
    | _ => d

/-- The `for (const key in obj)` loop of `searchForFieldsRecursively`. -/
def searchFields (fields : List (String × Json)) (d : AadhaarDetails) (depth : Nat) :
    AadhaarDetails :=
  match fields with
  | [] => d
  | (key, v) :: rest =>
    let d1 := searchStep key v d
    let d2 := match v with
      | .obj f => searchForFieldsRecursively (.obj f) d1 (depth + 1)
      | _ => d1
    searchFields rest d2 depth

end

/-- The loop body's final statement, named for the proofs:
`if (typeof value === 'object' && value !== null)` recurse at `depth + 1`. -/
def searchRecurse (v : Json) (d : AadhaarDetails) (depth : Nat) : AadhaarDetails :=
  match v with
  | .obj f => searchForFieldsRecursively (.obj f) d (depth + 1)
  | _ => d

/-- Unfolding equation for one loop iteration, phrased with `searchRecurse`. -/
theorem searchFields_cons (key : String) (v : Json) (rest : List (String × Json))
    (d : AadhaarDetails) (depth : Nat) :
    searchFields ((key, v) :: rest) d depth =
      searchFields rest (searchRecurse v (searchStep key v d) depth) depth := by
  cases v <;> rfl

/-- Methods 1–7 in order (the shared part of both revisions of
`parseAadhaarFromJSON`, up to but excluding the clean-up block). -/
def parseMethods (data : Json) : AadhaarDetails :=
  let d := method1 data emptyDetails
  let d := method2 data d
  let d := method3 data d
  let d := method4 data d
  let d := method5 data d
  let d := method6 data d
  if d.aadhaarNumber = "" || d.name = "" then searchForFieldsRecursively data d 0 else d

/-- Shared name clean-up:
`.replace(/[^\w\s]/g, '').replace(/\s+/g, ' ').trim().toUpperCase()`. -/
def jsNameCleanup (s : String) : String :=
  jsToUpper (jsTrim (collapseWs (stripNonWordSpace s)))

/-- Post-processing of the strict revision (`src/src/lib/aadhaarService.ts`):
digit-filter the number and keep it only when exactly 12 digits remain. -/
def postProcessStrict (d : AadhaarDetails) : AadhaarDetails :=
  let d := if d.aadhaarNumber ≠ "" then
      let cleanAadhaar := digitsOnly d.aadhaarNumber
      if cleanAadhaar.length = 12 then { d with aadhaarNumber := cleanAadhaar }
      else { d with aadhaarNumber := "" }
    else d
  if d.name ≠ "" then { d with name := jsNameCleanup d.name } else d

/-- Post-processing of the tolerant revision (`src/unnamed/part_000`):
strip whitespace and keep the number when at least 8 characters remain
(accepting vendor-masked values such as `xxxxxxxx0511`). -/
def postProcessTolerant (d : AadhaarDetails) : AadhaarDetails :=
  let d := if d.aadhaarNumber ≠ "" then
      let cleanAadhaar := stripWs d.aadhaarNumber
      if cleanAadhaar.length ≥ 8 then { d with aadhaarNumber := cleanAadhaar }
      else { d with aadhaarNumber := "" }
    else d
  if d.name ≠ "" then { d with name := jsNameCleanup d.name } else d

/-- `parseAadhaarFromJSON` of the strict revision. -/
def parseAadhaarStrict (data : Json) : AadhaarDetails :=
  postProcessStrict (parseMethods data)

/-- `parseAadhaarFromJSON` of the tolerant revision. -/
def parseAadhaarTolerant (data : Json) : AadhaarDetails :=
  postProcessTolerant (parseMethods data)

/-! ## Regex models for the validators -/

/-- Consume exactly `n` decimal digits. -/
def expectDigits : Nat → List Char → Option (List Char)
  | 0, cs => some cs
  | n + 1, c :: cs => if c.isDigit then expectDigits n cs else none
  | _ + 1, [] => none

/-- Consume one literal character. -/
def expectChar (c : Char) : List Char → Option (List Char)
  | x :: rest => if x = c then some rest else none
  | [] => none

/-- `/\d{4}-\d{2}-\d{2}T\d{2}:\d{2}:\d{2}/` matched at the head of the list. -/
def timestampAt (cs : List Char) : Bool :=
  (expectDigits 4 cs >>= expectChar '-' >>= expectDigits 2 >>= expectChar '-' >>=
    expectDigits 2 >>= expectChar 'T' >>= expectDigits 2 >>= expectChar ':' >>=
    expectDigits 2 >>= expectChar ':' >>= expectDigits 2).isSome

/-- Does `p` hold at some suffix? (models an unanchored regexp `test`). -/
def anyPosition (p : List Char → Bool) : List Char → Bool
  | [] => p []
  | c :: rest => p (c :: rest) || anyPosition p rest

/-- `/\d{4}-\d{2}-\d{2}T\d{2}:\d{2}:\d{2}/.test(rawText)`. -/
def hasTimestampPattern (s : String) : Bool :=
  anyPosition timestampAt s.toList

/-- The character class `[A-Z0-9\-]`. -/
def isCertChar (c : Char) : Bool :=
  c.isUpper || c.isDigit || c = '-'

/-- `/[A-Z0-9\-]{10,}/.test(rawText)` — some position starts a run of at
least 10 class characters. -/
def hasCertificatePattern (s : String) : Bool :=
  anyPosition (fun cs => decide ((cs.take 10).length = 10) && (cs.take 10).all isCertChar)
    s.toList

/-! ## Tolerant-revision structural validation (`src/unnamed/part_000`) -/

/-- `DIGILOCKER_PATTERNS.CERTIFICATE_TYPES`. -/
def certificateTypes : List String :=
  ["AADHAAR", "AADHAR", "UIDAI", "UNIQUE IDENTIFICATION AUTHORITY OF INDIA"]

/-- `DIGILOCKER_PATTERNS.REQUIRED_FIELDS`. -/
def requiredFields : List String :=
  ["KycRes", "UidData", "certificate", "CertificateData"]

/-- `DIGILOCKER_PATTERNS.SIGNATURE_PATTERNS`. -/
def signaturePatterns : List String :=
  ["ds:Signature", "DigiSign", "UIDAI_SIGN", "xmldsig"]

/-- `data.hasOwnProperty(k)` — property present regardless of truthiness. -/
def hasOwn (data : Json) (k : String) : Bool :=
  (data.lookup k).isSome

/-- `hasValidDigiLockerStructure`. -/
def hasValidDigiLockerStructure (data : Json) : Bool :=
  (match getTruthy data "KycRes" with
   | some kyc => (getTruthy kyc "UidData").isSome
   | none => false) ||
  (match getTruthy data "CertificateData" with
   | some cd => (getTruthy cd "certificate").isSome
   | none => false) ||
  (getTruthy data "PrintLetterBWPhoto").isSome ||
  (getTruthy data "printLetterBWPhoto").isSome ||
  requiredFields.any (fun f => hasOwn data f)

/-- `hasDigiLockerMetadata` (the `data` argument is unused in the source
too — every check reads the raw text). -/
def hasDigiLockerMetadata (rawText : String) : Bool :=
  signaturePatterns.any (fun p => strIncludes (jsToLower rawText) (jsToLower p)) ||
  certificateTypes.any (fun t => strIncludes (jsToUpper rawText) t) ||
  (hasTimestampPattern rawText && hasCertificatePattern rawText)

/-- `typeof v === 'object'` for a truthy JSON value. -/
def isObjectType : Json → Bool
  | .obj _ => true
  | _ => false

/-- `validateCertificateStructure`. -/
def validateCertificateStructure (data : Json) : Bool :=
  match getTruthy data "CertificateData" <|> getTruthy data "certificate" with
  | none => true
  | some certData =>
    ((getTruthy certData "uid").isSome || (getTruthy certData "UID").isSome) &&
    ((getTruthy certData "name").isSome || (getTruthy certData "Name").isSome) &&
    ((getTruthy certData "certificate").isSome || isObjectType certData)

/-- `validateDigiLockerIntegrity`: the three checks in order, each failure
carrying its reason string. -/
def validateDigiLockerIntegrity (data : Json) (rawText : String) :
    Except String Unit :=
  if !hasValidDigiLockerStructure data then
    .error "This does not appear to be a valid DigiLocker JSON file structure."
  else if !hasDigiLockerMetadata rawText then
    .error "Missing DigiLocker authentication metadata. File may be tampered with."
  else if !validateCertificateStructure data then
    .error "Certificate structure validation failed."
  else .ok ()

/-! ## Post-extraction gate `validateExtractedData` (tolerant revision only) -/

/-- The character class `[A-Za-z\s\.\-']` of the name regexp. -/
def isNameChar (c : Char) : Bool :=
  c.isAlpha || isJsWhitespace c || c = '.' || c = '-' || c = '\''

/-- `/^[A-Za-z\s\.\-']+$/.test(name)`. -/
def validNamePattern (s : String) : Bool :=
  !s.toList.isEmpty && s.toList.all isNameChar

/-- The character class `[0-9x]` with the `i` flag. -/
def isMaskDigit (c : Char) : Bool :=
  c.isDigit || c = 'x' || c = 'X'

/-- `/^[0-9x]{8,12}$/i.test(s)`. -/
def validAadhaarPattern (s : String) : Bool :=
  decide (8 ≤ s.length) && decide (s.length ≤ 12) && s.toList.all isMaskDigit

/-- The three accepted date-of-birth formats
(`DD/MM/YYYY`, `YYYY-MM-DD`, `DD-MM-YYYY`). -/
def validDobPattern (s : String) : Bool :=
  match s.toList with
  | [d1, d2, '/', m1, m2, '/', y1, y2, y3, y4] =>
    [d1, d2, m1, m2, y1, y2, y3, y4].all Char.isDigit
  | [y1, y2, y3, y4, '-', m1, m2, '-', d1, d2] =>
    [y1, y2, y3, y4, m1, m2, d1, d2].all Char.isDigit
  | [d1, d2, '-', m1, m2, '-', y1, y2, y3, y4] =>
    [d1, d2, m1, m2, y1, y2, y3, y4].all Char.isDigit
  | _ => false

/-- The fixed gender vocabulary of `validateExtractedData`. -/
def validGenders : List String :=
  ["male", "female", "others", "m", "f", "o"]

/-- `validateExtractedData` — each field is re-checked only when present
(truthy), and any failed check rejects the whole record. -/
def validateExtractedData (d : AadhaarDetails) : Bool :=
  (if d.name ≠ "" then
    validNamePattern d.name &&
    !(decide (d.name.length < 2) || decide (d.name.length > 100))
   else true) &&
  (if d.aadhaarNumber ≠ "" then validAadhaarPattern (stripWs d.aadhaarNumber) else true) &&
  (if d.dob ≠ "" then validDobPattern d.dob else true) &&
  (if d.gender ≠ "" then validGenders.contains (jsToLower d.gender) else true)

/-! ## Strict-revision structural validation (`src/src/lib/aadhaarService.ts`) -/

/-- `isValidAadhaarJSON`. -/
def isValidAadhaarJSON (data : Json) : Bool :=
  (match getTruthy data "KycRes" with
   | some kyc => (getTruthy kyc "UidData").isSome
   | none => false) ||
  (getTruthy data "uid").isSome || (getTruthy data "UID").isSome ||
  (getTruthy data "aadhaarNumber").isSome || (getTruthy data "AadhaarNumber").isSome ||
  (match getTruthy data "KycRes" with
   | some kyc => (getTruthy kyc "Poi").isSome || (getTruthy kyc "Poa").isSome
   | none => false) ||
  (match getTruthy data "CertificateData" with
   | some cd => (getTruthy cd "certificate").isSome
   | none => false) ||
  (getTruthy data "demographicData").isSome || (getTruthy data "DemographicData").isSome ||
  (getTruthy data "PrintLetterBWPhoto").isSome || (getTruthy data "printLetterBWPhoto").isSome

/-! ## The two `extractAadhaarFromJSON` pipelines

Both are modelled from the point where the uploaded file has been read and
`JSON.parse` has succeeded (file handling and the `.json`-extension check are
browser I/O).  The tolerant revision also checks the file size, which equals
the UTF-8 byte length of the raw text. -/

/-- `extractAadhaarFromJSON` of the strict revision. -/
def extractStrict (data : Json) : Except String AadhaarDetails :=
  if !isValidAadhaarJSON data then
    .error "This does not appear to be a valid Aadhaar JSON file from DigiLocker. Please download the correct file."
  else
    let details := parseAadhaarStrict data
    if details.name = "" || details.aadhaarNumber = "" then
      .error "Could not extract required Aadhaar details (Name and Aadhaar Number) from the JSON file."
    else .ok details

/-- `extractAadhaarFromJSON` of the tolerant revision (size checks,
integrity validation, parse, required-fields check, post-extraction gate). -/
def extractTolerant (data : Json) (rawText : String) : Except String AadhaarDetails :=
  if utf8SizeJs rawText > 100 * 1024 then
    .error "File too large. DigiLocker Aadhaar JSON files are typically much smaller."
  else if utf8SizeJs rawText < 100 then
    .error "File too small. This does not appear to be a valid DigiLocker JSON."
  else
    match validateDigiLockerIntegrity data rawText with
    | .error e => .error ("Security validation failed: " ++ e)
    | .ok () =>
      let details := parseAadhaarTolerant data
      if details.name = "" || details.aadhaarNumber = "" then
        .error "Could not extract required Aadhaar details (Name and Aadhaar Number) from the JSON file."
      else if !validateExtractedData details then
        .error "Extracted data appears to be invalid or tampered with."
      else .ok details

/-! ## `atob` — the reversible encoding of the escrowed fields

The store function encodes every escrowed field with `btoa` and the verify
handler decodes with `atob`.  `atobJs` implements the forgiving-base64
decode `atob` performs; `none` models the `InvalidCharacterError` throw,
which the handler's `catch` turns into a 500 response. -/

/-- ASCII whitespace as stripped by forgiving-base64. -/
def isAsciiWs (c : Char) : Bool :=
  c = '\t' || c = '\n' || c = '\x0c' || c = '\r' || c = ' '

/-- Value of one base64 alphabet character. -/
def base64CharVal (c : Char) : Option Nat :=
  if 'A' ≤ c && c ≤ 'Z' then some (c.toNat - 65)
  else if 'a' ≤ c && c ≤ 'z' then some (c.toNat - 97 + 26)
  else if '0' ≤ c && c ≤ '9' then some (c.toNat - 48 + 52)
  else if c = '+' then some 62
  else if c = '/' then some 63
  else none

/-- Decode a padding-stripped sequence of 6-bit values into bytes. -/
def decodeB64Groups : List Nat → Option (List Nat)
  | [] => some []
  | [_] => none
  | [a, b] => some [a * 4 + b / 16]
  | [a, b, c] => some [a * 4 + b / 16, b % 16 * 16 + c / 4]
  | a :: b :: c :: d :: rest =>
    (decodeB64Groups rest).map
      (fun tail => (a * 4 + b / 16) :: (b % 16 * 16 + c / 4) :: (c % 4 * 64 + d) :: tail)

/-- Remove up to two trailing `=` when the length is a multiple of 4. -/
def stripB64Padding (cs : List Char) : List Char :=
  if cs.length % 4 = 0 then
    match cs.reverse with
    | '=' :: '=' :: rest => rest.reverse
    | '=' :: rest => rest.reverse
    | _ => cs
  else cs

/-- JavaScript `atob(s)`; `none` when `atob` would throw. -/
def atobJs (s : String) : Option String :=
  let cs := stripB64Padding (s.toList.filter (fun c => !isAsciiWs c))
  if cs.length % 4 = 1 then none
  else
    match cs.mapM base64CharVal with
    | none => none
    | some vals =>
      match decodeB64Groups vals with
      | none => none
      | some bytes => some (String.mk (bytes.map Char.ofNat))

/-! ## The recovery verification protocol
(`src/supabase/functions/verify-aadhaar-recovery/index.ts`) -/

/-- A row of the `aadhaar_recovery` table as read by the verify handler.
`last_recovery_attempt` is an epoch timestamp in milliseconds (`Int`, as
`Date.getTime()` differences are exact integers); the freshly inserted row
has `recovery_attempts = 0` (column default) and no
`last_recovery_attempt`.  The `encrypted_decryption_key`/`salt` columns are
not modelled: they are only read on the secret-release path after the match
decision. -/
structure RecoveryRecord where
  encrypted_name : String
  encrypted_aadhaar_number : String
  encrypted_dob : Option String
  encrypted_gender : Option String
  recovery_attempts : Nat
  last_recovery_attempt : Option Int
deriving DecidableEq

/-- The JSON body of a verify request.  `dob`/`gender` are optional
(`none` models an omitted field). -/
structure VerifyRequest where
  userEmail : String
  name : String
  aadhaarNumber : String
  dob : Option String
  gender : Option String
deriving DecidableEq

/-- Outcome of one verify call.  `matched` is the successful-match branch
(identity verified; the handler then decodes the secret and attempts email
delivery, whose failure is reported separately without changing the
verification decision).  `internalError` is the `catch`-all 500 reached when
`atob` throws on a stored field. -/
inductive VerifyOutcome where
  | missingFields
  | notFound
  | rateLimited
  | mismatched
  | matched
  | internalError
deriving DecidableEq

/-- Milliseconds in 24 hours.  The handler computes
`hoursSinceLastAttempt = (now - last) / 3600000` as a float and compares it
with 24; since division by the positive constant is order-preserving and
exact at the boundary, `hours < 24 ↔ now - last < 86400000`. -/
def msPerDay : Int := 24 * 60 * 60 * 1000

/-- `hoursSinceLastAttempt < 24`, with a missing `last_recovery_attempt`
giving `hoursSinceLastAttempt = 24` (hence `false`). -/
def hoursLt24 (now : Int) (last : Option Int) : Bool :=
  match last with
  | none => false
  | some t => now - t < msPerDay

/-- JavaScript falsiness of an optional string request field. -/
def optFalsy : Option String → Bool
  | none => true
  | some s => s = ""

/-- `recoveryData.encrypted_x ? atob(recoveryData.encrypted_x) : null`.
Outer `none` models the `atob` throw. -/
def decodeOptionalField : Option String → Option (Option String)
  | none => some none
  | some s => if s = "" then some none else (atobJs s).map some

/-- The verify handler, from request parsing to the match decision.
Input: the escrowed record for the request's address (`none` when the store
has no row), the request body and the current time.  Output: the outcome and
the record afterwards (the handler updates `recovery_attempts` and
`last_recovery_attempt` exactly when it reaches the comparison). -/
def verifyRecovery (store : Option RecoveryRecord) (req : VerifyRequest) (now : Int) :
    VerifyOutcome × Option RecoveryRecord :=
  if req.userEmail = "" || req.name = "" || req.aadhaarNumber = "" then
    (.missingFields, store)
  else
    match store with
    | none => (.notFound, none)
    | some r =>
      let lt24 := hoursLt24 now r.last_recovery_attempt
      if lt24 && decide (r.recovery_attempts ≥ 5) then (.rateLimited, some r)
      else
        match atobJs r.encrypted_name, atobJs r.encrypted_aadhaar_number,
    decodeOptionalField r.encrypted_dob, decodeOptionalField r.encrypted_gender with
        | some storedName, some storedAadhaar, some storedDob, some storedGender =>
          let nameMatch := jsToLower storedName = jsToLower req.name
          let aadhaarMatch := storedAadhaar = req.aadhaarNumber
          let dobMatch := storedDob.isNone || optFalsy req.dob || storedDob == req.dob
          let genderMatch := storedGender.isNone || optFalsy req.gender ||
            storedGender.map jsToLower == req.gender.map jsToLower
          let newAttempts := if !lt24 then 1 else r.recovery_attempts + 1
          let r1 := { r with recovery_attempts := newAttempts,
                             last_recovery_attempt := some now }
          if !(nameMatch && aadhaarMatch && dobMatch && genderMatch) then
            (.mismatched, some r1)
          else (.matched, some r1)
        | _, _, _, _ => (.internalError, some r)

/-- Run a sequence of verify calls against the store, threading the record
state; each list entry is a request together with its arrival time. -/
def runVerifyCalls (store : Option RecoveryRecord) :
    List (VerifyRequest × Int) → Option RecoveryRecord
  | [] => store
  | (req, now) :: rest => runVerifyCalls (verifyRecovery store req now).2 rest

/-- The attempt counter visible in the store. -/
def attemptsOf : Option RecoveryRecord → Nat
  | none => 0
  | some r => r.recovery_attempts

/-! ## Auxiliary definitions for the claims -/

mutual

/-- Truncate a JSON tree: at cutoff `0` an object collapses (its keys become
unobservable), scalars are kept; below an object the cutoff decreases. -/
def prune : Nat → Json → Json
  | 0, v => match v with | .obj _ => .null | w => w
  | n + 1, .obj fields => .obj (pruneFields n fields)
  | _ + 1, v => v

/-- Pointwise `prune` over an object's fields. -/
def pruneFields : Nat → List (String × Json) → List (String × Json)
  | _, [] => []
  | n, (k, v) :: rest => (k, prune n v) :: pruneFields n rest

end

/-- A document nested `n` objects deep. -/
def deepNest : Nat → Json
  | 0 => .null
  | n + 1 => .obj [("a", deepNest n)]

/-- The post-extraction acceptance rule as the specification words it:
name in the allowed class with length in [2,100], whitespace-stripped
identity number matching the digit/mask pattern of length 8–12, birth date
(if present) in one of the three formats, gender (if present) in the fixed
vocabulary. -/
def specPostExtractionGate (d : AadhaarDetails) : Bool :=
  validNamePattern d.name && decide (2 ≤ d.name.length) && decide (d.name.length ≤ 100) &&
  validAadhaarPattern (stripWs d.aadhaarNumber) &&
  (d.dob = "" || validDobPattern d.dob) &&
  (d.gender = "" || validGenders.contains (jsToLower d.gender))

/-! ## Concrete documents and records used by the claims -/

/-- The end-to-end example document of the specification:
`KycRes.UidData` with `@uid "1234 5678 9012"` and
`Poi` carrying `@name "jane doe"`, `@dob "01/01/1990"`, `@gender "F"`. -/
def cDocC2 : Json :=
  .obj [("KycRes", .obj [("UidData", .obj [
    ("@uid", .str "1234 5678 9012"),
    ("Poi", .obj [("@name", .str "jane doe"), ("@dob", .str "01/01/1990"),
                  ("@gender", .str "F")])])])]

/-- The canonical (separator-free) JSON serialization of `cDocC2`,
i.e. the raw text of the uploaded file. -/
def cRawC2 : String :=
  "\x7b\"KycRes\":\x7b\"UidData\":\x7b\"@uid\":\"1234 5678 9012\",\"Poi\":\x7b\"@name\":\"jane doe\",\"@dob\":\"01/01/1990\",\"@gender\":\"F\"\x7d\x7d\x7d\x7d"

/-- The record the extractor produces for `cDocC2`. -/
def cDetailsC2 : AadhaarDetails := ⟨"JANE DOE", "123456789012", "01/01/1990", "F"⟩

/-- A primary-shape document whose `@uid` is a vendor-masked number. -/
def cDocC3 : Json :=
  .obj [("KycRes", .obj [("UidData", .obj [("@uid", .str "xxxxxxxx0511")])])]

/-- A primary-shape document whose `@name` contains a double space. -/
def cDocC7 : Json :=
  .obj [("KycRes", .obj [("UidData", .obj [
    ("@uid", .str "1234 5678 9012"),
    ("Poi", .obj [("@name", .str "jane  doe")])])])]

/-- A structurally valid document whose extracted name fails the
post-extraction gate (it contains a digit, which the name clean-up keeps
but the gate's character class rejects). -/
def cDocC8 : Json :=
  .obj [("KycRes", .obj [("UidData", .obj [
    ("@uid", .str "123456789012"),
    ("Poi", .obj [("@name", .str "JOHN3 DOE")])])])]

/-- Raw text for `cDocC8`: long enough for the size check and carrying a
`UIDAI` provenance marker so the metadata check passes. -/
def cRawC8 : String :=
  "\x7b\"KycRes\":\x7b\"UidData\":\x7b\"@uid\":\"123456789012\",\"Poi\":\x7b\"@name\":\"JOHN3 DOE\"\x7d\x7d\x7d,\"issuer\":\"UIDAI certificate export\"\x7d"

/-- A document whose masked identity number is reachable only through the
recursive fallback (the key `user_uid` matches no known shape). -/
def cDocC10 : Json :=
  .obj [("user_uid", .str "xxxxxxxx0511")]

/-- A freshly escrowed record: fields are the `btoa` encodings of
`"JOHN DOE"`, `"123456789012"`, `"01/01/1990"` and `"Male"`; the attempt
counter starts at the column default `0` with no prior attempt. -/
def cFreshRecord : RecoveryRecord :=
  { encrypted_name := "Sk9ITiBET0U=",
    encrypted_aadhaar_number := "MTIzNDU2Nzg5MDEy",
    encrypted_dob := some "MDEvMDEvMTk5MA==",
    encrypted_gender := some "TWFsZQ==",
    recovery_attempts := 0,
    last_recovery_attempt := none }

/-- A request whose identity number does not match `cFreshRecord`. -/
def cWrongReq : VerifyRequest :=
  ⟨"u@example.com", "JOHN DOE", "000000000000", none, none⟩

/-- A request matching `cFreshRecord` (name differing only in case) that
omits the optional birth date and gender. -/
def cCorrectReq : VerifyRequest :=
  ⟨"u@example.com", "john doe", "123456789012", none, none⟩

/-- Five mismatching calls within one 24-hour window. -/
def cFiveMismatches : List (VerifyRequest × Int) :=
  [(cWrongReq, 0), (cWrongReq, 1000), (cWrongReq, 2000),
   (cWrongReq, 3000), (cWrongReq, 4000)]

/-- One mismatching call per day for 30 days (exactly 24 hours apart). -/
def cThirtyDaily : List (VerifyRequest × Int) :=
  (List.range 30).map (fun k => (cWrongReq, (k : Int) * 86400000))

/-- `cFreshRecord` after five recent attempts: the rate-limited state. -/
def cRateLimitedRecord : RecoveryRecord :=
  { cFreshRecord with recovery_attempts := 5, last_recovery_attempt := some 0 }

/-! # Theorems for the claims -/

/-- Claim C2, counterexample.  On the specification's end-to-end example
document the extracted gender is the untouched input string `"F"`, not
`"Female"`: the strict revision's extract succeeds with gender `"F"`, the
tolerant revision's parser produces the same `"F"`, and the tolerant
revision's full extract in fact rejects the document's canonical
serialization at the provenance-metadata check. -/
theorem claim_C2_counterexample :
    extractStrict cDocC2 = Except.ok cDetailsC2 ∧
    (parseAadhaarTolerant cDocC2).gender = "F" ∧
    extractTolerant cDocC2 cRawC2 =
      Except.error "Security validation failed: Missing DigiLocker authentication metadata. File may be tampered with." ∧
    cDetailsC2.gender ≠ "Female" :=
  ⟨rfl, by decide, rfl, by decide⟩

/-- Claim C2, amended.  For the concrete example document, extraction
yields fullName `"JANE DOE"`, identityNumber `"123456789012"`, birthDate
`"01/01/1990"` and gender passed through unchanged as `"F"`
(`normalizeGender` maps only strings containing `male`/`female`/`other`/
`transgender`): the strict revision's extract returns exactly this record,
and the tolerant revision's parser and post-extraction gate produce and
accept the same record. -/
theorem claim_C2_extraction_result :
    extractStrict cDocC2 = Except.ok cDetailsC2 ∧
    parseAadhaarTolerant cDocC2 = cDetailsC2 ∧
    validateExtractedData cDetailsC2 = true ∧
    normalizeGender "F" = "F" :=
  ⟨rfl, by decide, by decide, by decide⟩

/-- Claim C3, counterexample.  In the tolerant revision the candidate
identity number is **not** digit-filtered: for a masked `@uid` the
post-processing keeps the whole whitespace-stripped value
`"xxxxxxxx0511"`, although its digit-filtered form has only 4 digits —
under the claim's digit-count policy (≥ 8 digits) it would have been
cleared to the empty string. -/
theorem claim_C3_counterexample :
    (parseAadhaarTolerant cDocC3).aadhaarNumber = "xxxxxxxx0511" ∧
    (digitsOnly "xxxxxxxx0511").length = 4 ∧
    ("xxxxxxxx0511" : String) ≠ "" := by
  refine ⟨by decide, by decide, by decide⟩

/-! ## Helper lemmas -/

/-- The name clean-up step of either post-processing leaves the identity
number untouched. -/
theorem nameStep_aadhaar (d : AadhaarDetails) :
    (if d.name ≠ "" then { d with name := jsNameCleanup d.name } else d).aadhaarNumber =
      d.aadhaarNumber := by
  split <;> rfl

/-- Everything `digitsOnly` keeps is a digit. -/
theorem digitsOnly_all_digits (s : String) :
    (digitsOnly s).toList.all Char.isDigit = true := by
  have : (digitsOnly s).toList = s.toList.filter Char.isDigit := rfl
  rw [this, List.all_eq_true]
  intro a ha
  exact (List.mem_filter.mp ha).2

/-- The strict post-processing of a record with a non-empty candidate:
digit-filter, accept exactly 12. -/
theorem postProcessStrict_aadhaar (d : AadhaarDetails) (h : d.aadhaarNumber ≠ "") :
    (postProcessStrict d).aadhaarNumber =
      if (digitsOnly d.aadhaarNumber).length = 12 then digitsOnly d.aadhaarNumber
      else "" := by
  unfold postProcessStrict
  rw [if_pos h, nameStep_aadhaar]
  split <;> rename_i hc <;> simp [hc]

/-- The tolerant post-processing of a record with a non-empty candidate:
strip whitespace, accept length at least 8. -/
theorem postProcessTolerant_aadhaar (d : AadhaarDetails) (h : d.aadhaarNumber ≠ "") :
    (postProcessTolerant d).aadhaarNumber =
      if 8 ≤ (stripWs d.aadhaarNumber).length then stripWs d.aadhaarNumber
      else "" := by
  unfold postProcessTolerant
  rw [if_pos h, nameStep_aadhaar]
  simp only [ge_iff_le]
  split <;> rename_i hc <;> simp [hc]

/-- Claim C3, amended.  The two revisions' post-processing policies differ
as the code has them: the strict revision digit-filters the candidate and
accepts exactly 12 digits, while the tolerant revision only strips
whitespace (mask characters count toward the length) and accepts total
length at least 8; a candidate not meeting the policy is cleared to the
empty string.  Consequently the strict result is empty or exactly 12
digits, and the tolerant result is empty or at least 8 characters long. -/
theorem claim_C3_postprocess_policy (data : Json)
    (h : (parseMethods data).aadhaarNumber ≠ "") :
    ((parseAadhaarStrict data).aadhaarNumber =
       if (digitsOnly (parseMethods data).aadhaarNumber).length = 12
       then digitsOnly (parseMethods data).aadhaarNumber else "") ∧
    ((parseAadhaarTolerant data).aadhaarNumber =
       if 8 ≤ (stripWs (parseMethods data).aadhaarNumber).length
       then stripWs (parseMethods data).aadhaarNumber else "") ∧
    ((parseAadhaarStrict data).aadhaarNumber = "" ∨
      ((parseAadhaarStrict data).aadhaarNumber.length = 12 ∧
       (parseAadhaarStrict data).aadhaarNumber.toList.all Char.isDigit = true)) ∧
    ((parseAadhaarTolerant data).aadhaarNumber = "" ∨
      8 ≤ (parseAadhaarTolerant data).aadhaarNumber.length) := by
  unfold parseAadhaarStrict parseAadhaarTolerant
  generalize parseMethods data = pd at h ⊢
  have hs := postProcessStrict_aadhaar pd h
  have ht := postProcessTolerant_aadhaar pd h
  refine ⟨hs, ht, ?_, ?_⟩
  · rw [hs]
    split <;> rename_i hc
    · exact Or.inr ⟨hc, digitsOnly_all_digits _⟩
    · exact Or.inl rfl
  · rw [ht]
    split <;> rename_i hc
    · exact Or.inr hc
    · exact Or.inl rfl

/-- Claim C3, witness: the amended policy theorem applied to `cDocC3`,
whose parsed candidate is the non-empty masked value `"xxxxxxxx0511"`. -/
theorem claim_C3_witness :
    (parseMethods cDocC3).aadhaarNumber ≠ "" ∧
    (((parseAadhaarStrict cDocC3).aadhaarNumber =
       if (digitsOnly (parseMethods cDocC3).aadhaarNumber).length = 12
       then digitsOnly (parseMethods cDocC3).aadhaarNumber else "") ∧
    ((parseAadhaarTolerant cDocC3).aadhaarNumber =
       if 8 ≤ (stripWs (parseMethods cDocC3).aadhaarNumber).length
       then stripWs (parseMethods cDocC3).aadhaarNumber else "") ∧
    ((parseAadhaarStrict cDocC3).aadhaarNumber = "" ∨
      ((parseAadhaarStrict cDocC3).aadhaarNumber.length = 12 ∧
       (parseAadhaarStrict cDocC3).aadhaarNumber.toList.all Char.isDigit = true)) ∧
    ((parseAadhaarTolerant cDocC3).aadhaarNumber = "" ∨
      8 ≤ (parseAadhaarTolerant cDocC3).aadhaarNumber.length)) :=
  ⟨by decide, claim_C3_postprocess_policy cDocC3 (by decide)⟩

/-- An `if`-guard producing an error cannot yield `ok`: peel it. -/
theorem eq_ok_of_ite {c : Prop} [Decidable c] {msg : String}
    {x : Except String AadhaarDetails} {d : AadhaarDetails}
    (h : (if c then Except.error msg else x) = Except.ok d) :
    ¬c ∧ x = Except.ok d := by
  split at h
  · exact absurd h (by simp)
  · exact ⟨by assumption, h⟩

/-- Claim C6.  Whichever revision of `extractAadhaarFromJSON` succeeds,
the returned record carries both a non-empty name and a non-empty
identity number: a record with only one of the two is never returned
(extraction fails instead). -/
theorem claim_C6_both_fields_or_failure (data : Json) (rawText : String)
    (d : AadhaarDetails)
    (h : extractStrict data = Except.ok d ∨ extractTolerant data rawText = Except.ok d) :
    d.name ≠ "" ∧ d.aadhaarNumber ≠ "" := by
  rcases h with h | h
  · unfold extractStrict at h
    generalize parseAadhaarStrict data = pd at h
    obtain ⟨_, h⟩ := eq_ok_of_ite h
    obtain ⟨hc, h⟩ := eq_ok_of_ite h
    cases h
    simpa [not_or] using hc
  · unfold extractTolerant at h
    generalize parseAadhaarTolerant data = pd at h
    obtain ⟨_, h⟩ := eq_ok_of_ite h
    obtain ⟨_, h⟩ := eq_ok_of_ite h
    rcases hv : validateDigiLockerIntegrity data rawText with e | u
    · rw [hv] at h
      exact absurd h (by simp)
    · cases u
      rw [hv] at h
      obtain ⟨hc, h⟩ := eq_ok_of_ite h
      obtain ⟨_, h⟩ := eq_ok_of_ite h
      cases h
      simpa [not_or] using hc

/-- Claim C6, witness: the strict extract succeeds on the example document,
so its output indeed has both fields non-empty. -/
theorem claim_C6_witness :
    (extractStrict cDocC2 = Except.ok cDetailsC2 ∨
      extractTolerant cDocC2 "" = Except.ok cDetailsC2) ∧
    cDetailsC2.name ≠ "" ∧ cDetailsC2.aadhaarNumber ≠ "" :=
  ⟨Or.inl rfl, claim_C6_both_fields_or_failure cDocC2 "" cDetailsC2 (Or.inl rfl)⟩

/-- The two Boolean renderings of "length within [2,100]" agree. -/
theorem nameLenBool (n : Nat) :
    (!(decide (n < 2) || decide (n > 100))) = (decide (2 ≤ n) && decide (n ≤ 100)) := by
  by_cases h2 : n < 2 <;> by_cases h3 : n > 100 <;> simp [h2, h3] <;> omega

/-- Claim C8.  When the document passes the size and structural/provenance
validation and parsing yields both required fields, the tolerant extract
succeeds exactly when `validateExtractedData` accepts the parsed record
(returning that record), and fails with the tampering error otherwise;
moreover the gate is precisely the specification's description
(`specPostExtractionGate`): name class and length in [2,100],
whitespace-stripped identity number matching the digit/mask pattern of
length 8–12, birth date (if present) in one of the three formats, gender
(if present) in the fixed vocabulary. -/
theorem claim_C8_post_extraction_gate (data : Json) (rawText : String)
    (hsize1 : utf8SizeJs rawText ≤ 100 * 1024)
    (hsize2 : 100 ≤ utf8SizeJs rawText)
    (hintegrity : validateDigiLockerIntegrity data rawText = Except.ok ())
    (hname : (parseAadhaarTolerant data).name ≠ "")
    (haad : (parseAadhaarTolerant data).aadhaarNumber ≠ "") :
    extractTolerant data rawText =
      (if validateExtractedData (parseAadhaarTolerant data) = true
       then Except.ok (parseAadhaarTolerant data)
       else Except.error "Extracted data appears to be invalid or tampered with.") ∧
    validateExtractedData (parseAadhaarTolerant data) =
      specPostExtractionGate (parseAadhaarTolerant data) := by
  constructor
  · unfold extractTolerant
    rw [if_neg (by omega), if_neg (by omega), hintegrity]
    generalize parseAadhaarTolerant data = pd at hname haad ⊢
    rw [if_neg (by simp [hname, haad])]
    cases hv : validateExtractedData pd <;> simp [hv]
  · generalize parseAadhaarTolerant data = pd at hname haad ⊢
    unfold validateExtractedData specPostExtractionGate
    rw [if_pos hname, if_pos haad, nameLenBool]
    by_cases hd : pd.dob = "" <;> by_cases hg : pd.gender = "" <;>
      simp [hd, hg, Bool.and_assoc]

/-! ## Verify-handler helper lemmas -/

/-- With a record present and a well-formed request, a true rate-limit guard
returns `rateLimited` and leaves the record untouched. -/
theorem verify_rl_pos (r : RecoveryRecord) (req : VerifyRequest) (now : Int)
    (hemail : req.userEmail ≠ "") (hname : req.name ≠ "") (haad : req.aadhaarNumber ≠ "")
    (h : (hoursLt24 now r.last_recovery_attempt && decide (r.recovery_attempts ≥ 5)) = true) :
    verifyRecovery (some r) req now = (.rateLimited, some r) := by
  simp only [verifyRecovery]
  rw [if_neg (by simp [hemail, hname, haad]), if_pos h]

/-- With a false rate-limit guard the outcome is never `rateLimited`. -/
theorem verify_rl_neg (r : RecoveryRecord) (req : VerifyRequest) (now : Int)
    (hemail : req.userEmail ≠ "") (hname : req.name ≠ "") (haad : req.aadhaarNumber ≠ "")
    (h : ¬(hoursLt24 now r.last_recovery_attempt && decide (r.recovery_attempts ≥ 5)) = true) :
    (verifyRecovery (some r) req now).1 ≠ .rateLimited := by
  simp only [verifyRecovery]
  rw [if_neg (by simp [hemail, hname, haad]), if_neg h]
  cases atobJs r.encrypted_name <;>
    cases atobJs r.encrypted_aadhaar_number <;>
    cases decodeOptionalField r.encrypted_dob <;>
    cases decodeOptionalField r.encrypted_gender <;>
    simp <;> split <;> simp

/-- Claim C1.  With an escrowed record present (and a request carrying the
required fields, as every submitted `IdentityAttributes` does), the outcome
is `RateLimited` iff fewer than 24 hours have passed since
`last_recovery_attempt` (a record with no prior attempt is treated as 24
hours elapsed, hence never rate limited) and `recovery_attempts ≥ 5`; a
rate-limited call leaves the record unchanged; and concretely, five
mismatching calls in one window followed by a sixth call with the correct
attributes still yields `RateLimited`. -/
theorem claim_C1_rate_limited_iff (r : RecoveryRecord) (req : VerifyRequest) (now : Int)
    (hemail : req.userEmail ≠ "") (hname : req.name ≠ "") (haad : req.aadhaarNumber ≠ "") :
    ((verifyRecovery (some r) req now).1 = .rateLimited ↔
      ((∃ t, r.last_recovery_attempt = some t ∧ now - t < msPerDay) ∧
        5 ≤ r.recovery_attempts)) ∧
    ((verifyRecovery (some r) req now).1 = .rateLimited →
      (verifyRecovery (some r) req now).2 = some r) ∧
    (verifyRecovery (runVerifyCalls (some cFreshRecord) cFiveMismatches)
      cCorrectReq 5000).1 = .rateLimited := by
  have hbool : (hoursLt24 now r.last_recovery_attempt &&
      decide (r.recovery_attempts ≥ 5)) = true ↔
      ((∃ t, r.last_recovery_attempt = some t ∧ now - t < msPerDay) ∧
        5 ≤ r.recovery_attempts) := by
    rw [Bool.and_eq_true, decide_eq_true_eq]
    unfold hoursLt24
    cases r.last_recovery_attempt with
    | none => simp
    | some t => simp
  refine ⟨?_, ?_, by decide⟩
  · constructor
    · intro hout
      by_cases hrl : (hoursLt24 now r.last_recovery_attempt &&
          decide (r.recovery_attempts ≥ 5)) = true
      · exact hbool.mp hrl
      · exact absurd hout (verify_rl_neg r req now hemail hname haad hrl)
    · intro hcond
      rw [verify_rl_pos r req now hemail hname haad (hbool.mpr hcond)]
  · intro hout
    by_cases hrl : (hoursLt24 now r.last_recovery_attempt &&
        decide (r.recovery_attempts ≥ 5)) = true
    · rw [verify_rl_pos r req now hemail hname haad hrl]
    · exact absurd hout (verify_rl_neg r req now hemail hname haad hrl)

/-- Claim C1, witness: the theorem applied to the rate-limited concrete
record (five attempts, last attempt at time 0) and the correct request one
second later: the outcome is `RateLimited` and the record is unchanged. -/
theorem claim_C1_witness :
    cCorrectReq.userEmail ≠ "" ∧ cCorrectReq.name ≠ "" ∧ cCorrectReq.aadhaarNumber ≠ "" ∧
    (((verifyRecovery (some cRateLimitedRecord) cCorrectReq 1000).1 = .rateLimited ↔
      ((∃ t, cRateLimitedRecord.last_recovery_attempt = some t ∧
          1000 - t < msPerDay) ∧ 5 ≤ cRateLimitedRecord.recovery_attempts)) ∧
    ((verifyRecovery (some cRateLimitedRecord) cCorrectReq 1000).1 = .rateLimited →
      (verifyRecovery (some cRateLimitedRecord) cCorrectReq 1000).2 =
        some cRateLimitedRecord) ∧
    (verifyRecovery (runVerifyCalls (some cFreshRecord) cFiveMismatches)
      cCorrectReq 5000).1 = .rateLimited) :=
  ⟨by decide, by decide, by decide,
    claim_C1_rate_limited_iff cRateLimitedRecord cCorrectReq 1000
      (by decide) (by decide) (by decide)⟩

/-- One verify call never pushes the attempt counter past 5. -/
theorem verify_attempts_le_five (store : Option RecoveryRecord) (req : VerifyRequest)
    (now : Int) (h : attemptsOf store ≤ 5) :
    attemptsOf (verifyRecovery store req now).2 ≤ 5 := by
  cases store with
  | none =>
    simp only [verifyRecovery]
    split <;> simp [attemptsOf]
  | some r =>
    simp only [attemptsOf] at h
    simp only [verifyRecovery]
    split
    · simpa [attemptsOf] using h
    · by_cases hrl : (hoursLt24 now r.last_recovery_attempt &&
          decide (r.recovery_attempts ≥ 5)) = true
      · rw [if_pos hrl]
        simpa [attemptsOf] using h
      · rw [if_neg hrl]
        have h4 : hoursLt24 now r.last_recovery_attempt = true →
            r.recovery_attempts ≤ 4 := by
          intro hlt
          simp only [Bool.and_eq_true, decide_eq_true_eq, not_and] at hrl
          have := hrl hlt
          omega
        cases hn : atobJs r.encrypted_name with
        | none => simp [attemptsOf, h, hn]
        | some sn =>
        cases ha2 : atobJs r.encrypted_aadhaar_number with
        | none => simp [attemptsOf, h, hn, ha2]
        | some sa =>
        cases hd2 : decodeOptionalField r.encrypted_dob with
        | none => simp [attemptsOf, h, hn, ha2, hd2]
        | some sd =>
        cases hg2 : decodeOptionalField r.encrypted_gender with
        | none => simp [attemptsOf, h, hn, ha2, hd2, hg2]
        | some sg =>
        simp only [hn, ha2, hd2, hg2]
        split <;>
        · cases hlt : hoursLt24 now r.last_recovery_attempt
          · simp [attemptsOf, hlt]
          · have := h4 hlt
            simp [attemptsOf, hlt]
            omega

/-- Iterating verify calls preserves the attempt bound. -/
theorem runVerifyCalls_attempts_le_five (calls : List (VerifyRequest × Int))
    (store : Option RecoveryRecord) (h : attemptsOf store ≤ 5) :
    attemptsOf (runVerifyCalls store calls) ≤ 5 := by
  induction calls generalizing store with
  | nil => exact h
  | cons c rest ih =>
    exact ih _ (verify_attempts_le_five store c.1 c.2 h)

/-- A call that reaches the comparison resets the counter to 1 after a full
24-hour window and increments it otherwise. -/
theorem verify_updates_attempts (r : RecoveryRecord) (req : VerifyRequest) (now : Int)
    (hemail : req.userEmail ≠ "") (hname : req.name ≠ "") (haad : req.aadhaarNumber ≠ "")
    (hn : (atobJs r.encrypted_name).isSome)
    (ha : (atobJs r.encrypted_aadhaar_number).isSome)
    (hd : (decodeOptionalField r.encrypted_dob).isSome)
    (hg : (decodeOptionalField r.encrypted_gender).isSome)
    (hout : (verifyRecovery (some r) req now).1 ≠ .rateLimited) :
    attemptsOf (verifyRecovery (some r) req now).2 =
      if hoursLt24 now r.last_recovery_attempt then r.recovery_attempts + 1 else 1 := by
  by_cases hrl : (hoursLt24 now r.last_recovery_attempt &&
      decide (r.recovery_attempts ≥ 5)) = true
  · exact absurd (by rw [verify_rl_pos r req now hemail hname haad hrl]) hout
  · rw [Option.isSome_iff_exists] at hn ha hd hg
    obtain ⟨sn, hsn⟩ := hn
    obtain ⟨sa, hsa⟩ := ha
    obtain ⟨sd, hsd⟩ := hd
    obtain ⟨sg, hsg⟩ := hg
    simp only [verifyRecovery]
    rw [if_neg (by simp [hemail, hname, haad]), if_neg hrl]
    simp only [hsn, hsa, hsd, hsg]
    split <;> cases hlt : hoursLt24 now r.last_recovery_attempt <;>
      simp [attemptsOf, hlt]

/-- Claim C4.  Starting from a freshly created record (attempt counter 0),
no finite sequence of verify calls at arbitrary times ever pushes
`recovery_attempts` above 5; every call that reaches the comparison sets the
counter to `previous + 1` inside a 24-hour window and resets it to 1
otherwise; and one mismatching call per day for 30 days leaves the counter
at 1. -/
theorem claim_C4_attempts_bounded (r0 : RecoveryRecord)
    (h0 : r0.recovery_attempts = 0) (calls : List (VerifyRequest × Int)) :
    attemptsOf (runVerifyCalls (some r0) calls) ≤ 5 ∧
    (∀ (r : RecoveryRecord) (req : VerifyRequest) (now : Int),
      req.userEmail ≠ "" → req.name ≠ "" → req.aadhaarNumber ≠ "" →
      (atobJs r.encrypted_name).isSome →
      (atobJs r.encrypted_aadhaar_number).isSome →
      (decodeOptionalField r.encrypted_dob).isSome →
      (decodeOptionalField r.encrypted_gender).isSome →
      (verifyRecovery (some r) req now).1 ≠ .rateLimited →
      attemptsOf (verifyRecovery (some r) req now).2 =
        if hoursLt24 now r.last_recovery_attempt then r.recovery_attempts + 1
        else 1) ∧
    attemptsOf (runVerifyCalls (some cFreshRecord) cThirtyDaily) = 1 := by
  refine ⟨?_, ?_, by decide⟩
  · exact runVerifyCalls_attempts_le_five calls (some r0) (by simp [attemptsOf, h0])
  · intro r req now hemail hname haad hn ha hd hg hout
    exact verify_updates_attempts r req now hemail hname haad hn ha hd hg hout

/-- Claim C4, witness: the theorem applied to the concrete fresh record and
the 30-day once-per-day mismatch schedule. -/
theorem claim_C4_witness :
    cFreshRecord.recovery_attempts = 0 ∧
    (attemptsOf (runVerifyCalls (some cFreshRecord) cThirtyDaily) ≤ 5 ∧
    (∀ (r : RecoveryRecord) (req : VerifyRequest) (now : Int),
      req.userEmail ≠ "" → req.name ≠ "" → req.aadhaarNumber ≠ "" →
      (atobJs r.encrypted_name).isSome →
      (atobJs r.encrypted_aadhaar_number).isSome →
      (decodeOptionalField r.encrypted_dob).isSome →
      (decodeOptionalField r.encrypted_gender).isSome →
      (verifyRecovery (some r) req now).1 ≠ .rateLimited →
      attemptsOf (verifyRecovery (some r) req now).2 =
        if hoursLt24 now r.last_recovery_attempt then r.recovery_attempts + 1
        else 1) ∧
    attemptsOf (runVerifyCalls (some cFreshRecord) cThirtyDaily) = 1) :=
  ⟨by decide, claim_C4_attempts_bounded cFreshRecord (by decide) cThirtyDaily⟩

/-- Claim C5, counterexample.  Against a record in the rate-limited state
(five attempts, last one recent), a request whose decoded name matches up to
case and whose identity number matches exactly, carrying no birth date and
no gender, still yields `RateLimited` — not `Matched` as the claim states
unconditionally. -/
theorem claim_C5_counterexample :
    (verifyRecovery (some cRateLimitedRecord) cCorrectReq 1000).1 = .rateLimited ∧
    VerifyOutcome.rateLimited ≠ VerifyOutcome.matched :=
  ⟨by decide, by decide⟩

/-- Claim C5, amended.  Provided the call is not blocked by the rate limit
(fewer than five attempts, or at least 24 hours since the last one), a
request whose decoded name matches up to case and whose decoded identity
number matches exactly yields `Matched` even though it omits both optional
fields while the escrowed record stores an (encoded, decodable) birth date
and gender: an optional field absent on either side never causes a
mismatch. -/
theorem claim_C5_optional_absent_matches (r : RecoveryRecord) (req : VerifyRequest)
    (now : Int) (sn sa ed eg sd sg : String)
    (hemail : req.userEmail ≠ "") (hname : req.name ≠ "") (haad : req.aadhaarNumber ≠ "")
    (hnorl : ¬(hoursLt24 now r.last_recovery_attempt = true ∧ 5 ≤ r.recovery_attempts))
    (hensn : atobJs r.encrypted_name = some sn)
    (hensa : atobJs r.encrypted_aadhaar_number = some sa)
    (hdob : r.encrypted_dob = some ed) (hed : ed ≠ "") (hsd : atobJs ed = some sd)
    (hgen : r.encrypted_gender = some eg) (heg : eg ≠ "") (hsg : atobJs eg = some sg)
    (hnm : jsToLower sn = jsToLower req.name) (ham : sa = req.aadhaarNumber)
    (hreqdob : req.dob = none) (hreqgen : req.gender = none) :
    (verifyRecovery (some r) req now).1 = .matched := by
  have hdd : decodeOptionalField r.encrypted_dob = some (some sd) := by
    rw [hdob]
    simp [decodeOptionalField, hed, hsd]
  have hgg : decodeOptionalField r.encrypted_gender = some (some sg) := by
    rw [hgen]
    simp [decodeOptionalField, heg, hsg]
  simp only [verifyRecovery]
  rw [if_neg (by simp [hemail, hname, haad]),
    if_neg (by simpa [Bool.and_eq_true] using hnorl)]
  simp only [hensn, hensa, hdd, hgg]
  rw [if_neg (by simp [hnm, ham, hreqdob, hreqgen, optFalsy])]

/-- Claim C5, witness: the amended theorem applied to the fresh concrete
record (which stores both an encoded birth date and gender) and the
matching request that omits both optional fields. -/
theorem claim_C5_witness :
    cCorrectReq.userEmail ≠ "" ∧
    ¬(hoursLt24 0 cFreshRecord.last_recovery_attempt = true ∧
        5 ≤ cFreshRecord.recovery_attempts) ∧
    atobJs cFreshRecord.encrypted_name = some "JOHN DOE" ∧
    cFreshRecord.encrypted_dob = some "MDEvMDEvMTk5MA==" ∧
    cFreshRecord.encrypted_gender = some "TWFsZQ==" ∧
    jsToLower "JOHN DOE" = jsToLower cCorrectReq.name ∧
    (verifyRecovery (some cFreshRecord) cCorrectReq 0).1 = .matched :=
  ⟨by decide, by decide, by decide, by decide, by decide, by decide,
    claim_C5_optional_absent_matches cFreshRecord cCorrectReq 0
      "JOHN DOE" "123456789012" "MDEvMDEvMTk5MA==" "TWFsZQ==" "01/01/1990" "Male"
      (by decide) (by decide) (by decide) (by decide) (by decide) (by decide)
      (by decide) (by decide) (by decide) (by decide) (by decide) (by decide)
      (by decide) (by decide) (by decide) (by decide)⟩

/-- Claim C8, witness: the gate theorem applied to the concrete document
whose extracted name `"JOHN3 DOE"` passes parsing (and the structural and
provenance checks pass on its raw text) but fails the gate's character
class, so the tolerant extract fails. -/
theorem claim_C8_witness :
    utf8SizeJs cRawC8 ≤ 100 * 1024 ∧ 100 ≤ utf8SizeJs cRawC8 ∧
    validateDigiLockerIntegrity cDocC8 cRawC8 = Except.ok () ∧
    (parseAadhaarTolerant cDocC8).name ≠ "" ∧
    (parseAadhaarTolerant cDocC8).aadhaarNumber ≠ "" ∧
    (extractTolerant cDocC8 cRawC8 =
      (if validateExtractedData (parseAadhaarTolerant cDocC8) = true
       then Except.ok (parseAadhaarTolerant cDocC8)
       else Except.error "Extracted data appears to be invalid or tampered with.") ∧
     validateExtractedData (parseAadhaarTolerant cDocC8) =
       specPostExtractionGate (parseAadhaarTolerant cDocC8)) :=
  ⟨by decide, by decide, rfl, by decide, by decide,
    claim_C8_post_extraction_gate cDocC8 cRawC8 (by decide) (by decide) rfl
      (by decide) (by decide)⟩

/-! ## Depth-boundedness of the recursive fallback search (claim C9) -/

/-- Pruning never changes a `searchStepUid` outcome: the step looks only at
strings and numbers, which pruning leaves untouched. -/
theorem searchStepUid_prune (lowerKey : String) (v : Json) (d : AadhaarDetails)
    (n : Nat) : searchStepUid lowerKey (prune n v) d = searchStepUid lowerKey v d := by
  cases v <;> cases n <;> rfl

/-- Pruning never changes a `searchStepName` outcome. -/
theorem searchStepName_prune (lowerKey : String) (v : Json) (d : AadhaarDetails)
    (n : Nat) : searchStepName lowerKey (prune n v) d = searchStepName lowerKey v d := by
  cases v <;> cases n <;> rfl

/-- Pruning never changes a `searchStepDob` outcome. -/
theorem searchStepDob_prune (lowerKey : String) (v : Json) (d : AadhaarDetails)
    (n : Nat) : searchStepDob lowerKey (prune n v) d = searchStepDob lowerKey v d := by
  cases v <;> cases n <;> rfl

/-- Pruning never changes a `searchStepGender` outcome. -/
theorem searchStepGender_prune (lowerKey : String) (v : Json) (d : AadhaarDetails)
    (n : Nat) : searchStepGender lowerKey (prune n v) d = searchStepGender lowerKey v d := by
  cases v <;> cases n <;> rfl

/-- Pruning never changes a whole per-key step. -/
theorem searchStep_prune (key : String) (v : Json) (d : AadhaarDetails) (n : Nat) :
    searchStep key (prune n v) d = searchStep key v d := by
  simp only [searchStep, searchStepUid_prune, searchStepName_prune,
    searchStepDob_prune, searchStepGender_prune]

mutual

/-- The search result depends only on the tree truncated at the depth
bound: keys more than the bound below the current depth are never
inspected. -/
theorem search_prune (v : Json) (d : AadhaarDetails) (k : Nat) (hk : k ≤ 6) :
    searchForFieldsRecursively v d k =
      searchForFieldsRecursively (prune (6 - k) v) d k := by
  by_cases hgt : k > 5
  · unfold searchForFieldsRecursively
    rw [if_pos hgt, if_pos hgt]
  · unfold searchForFieldsRecursively
    rw [if_neg hgt, if_neg hgt]
    have h6 : 6 - k = (5 - k) + 1 := by omega
    cases v with
    | obj fs =>
      rw [h6]
      simp only [prune]
      exact searchFields_prune fs d k (by omega)
    | str s => rw [h6]; rfl
    | num n => rw [h6]; rfl
    | jbool b => rw [h6]; rfl
    | null => rw [h6]; rfl
termination_by (sizeOf v, 0)

/-- Pointwise version of `search_prune` along an object's field list. -/
theorem searchFields_prune (fs : List (String × Json)) (d : AadhaarDetails)
    (k : Nat) (hk : k ≤ 5) :
    searchFields fs d k = searchFields (pruneFields (5 - k) fs) d k := by
  cases fs with
  | nil => simp only [pruneFields, searchFields]
  | cons kv rest =>
    obtain ⟨key, v⟩ := kv
    simp only [pruneFields]
    rw [searchFields_cons, searchFields_cons, searchStep_prune,
      searchRecurse_prune v (searchStep key v d) k hk]
    exact searchFields_prune rest _ k hk
termination_by (sizeOf fs, 2)

/-- Pruning below the bound cannot change the loop body's recursion step. -/
theorem searchRecurse_prune (v : Json) (d : AadhaarDetails) (k : Nat) (hk : k ≤ 5) :
    searchRecurse (prune (5 - k) v) d k = searchRecurse v d k := by
  cases v with
  | obj f =>
    cases h5 : 5 - k with
    | zero =>
      simp only [prune, searchRecurse]
      unfold searchForFieldsRecursively
      rw [if_pos (by omega)]
    | succ m =>
      simp only [prune, searchRecurse]
      have hsp := search_prune (Json.obj f) d (k + 1) (by omega)
      rw [show 6 - (k + 1) = m + 1 from by omega] at hsp
      simp only [prune] at hsp
      exact hsp.symm
  | str s => cases h5 : 5 - k <;> rfl
  | num n => cases h5 : 5 - k <;> rfl
  | jbool b => cases h5 : 5 - k <;> rfl
  | null => cases h5 : 5 - k <;> rfl
termination_by (sizeOf v, 1)

end

/-- A key whose lowercase form contains neither `uid` nor `aadhaar` leaves
the identity-number step inert. -/
theorem searchStepUid_noMatch (lk : String) (v : Json) (d : AadhaarDetails)
    (h1 : strIncludes lk "uid" = false) (h2 : strIncludes lk "aadhaar" = false) :
    searchStepUid lk v d = d := by
  unfold searchStepUid
  rw [h1, h2]
  simp

/-- A key whose lowercase form does not contain `name` leaves the name step
inert. -/
theorem searchStepName_noMatch (lk : String) (v : Json) (d : AadhaarDetails)
    (h1 : strIncludes lk "name" = false) :
    searchStepName lk v d = d := by
  unfold searchStepName
  rw [h1]
  simp

/-- A key whose lowercase form contains neither `dob` nor `birth` leaves the
birth-date step inert. -/
theorem searchStepDob_noMatch (lk : String) (v : Json) (d : AadhaarDetails)
    (h1 : strIncludes lk "dob" = false) (h2 : strIncludes lk "birth" = false) :
    searchStepDob lk v d = d := by
  unfold searchStepDob
  rw [h1, h2]
  simp

/-- A key whose lowercase form does not contain `gender` leaves the gender
step inert. -/
theorem searchStepGender_noMatch (lk : String) (v : Json) (d : AadhaarDetails)
    (h1 : strIncludes lk "gender" = false) :
    searchStepGender lk v d = d := by
  unfold searchStepGender
  rw [h1]
  simp

/-- The key `"a"` matches none of the field vocabularies. -/
theorem searchStep_a (v : Json) (d : AadhaarDetails) : searchStep "a" v d = d := by
  simp only [searchStep]
  rw [searchStepUid_noMatch (jsToLower "a") _ _ rfl rfl,
    searchStepName_noMatch (jsToLower "a") _ _ rfl,
    searchStepDob_noMatch (jsToLower "a") _ _ rfl rfl,
    searchStepGender_noMatch (jsToLower "a") _ _ rfl]

/-- The recursive search leaves the record untouched on an `n`-level nest of
`"a"` objects, for every `n` — in particular the 1000-deep document of the
claim terminates without inspecting anything. -/
theorem search_deepNest (n : Nat) : ∀ (d : AadhaarDetails) (k : Nat),
    searchForFieldsRecursively (deepNest n) d k = d := by
  induction n with
  | zero =>
    intro d k
    unfold deepNest searchForFieldsRecursively
    split <;> rfl
  | succ m ih =>
    intro d k
    show searchForFieldsRecursively (Json.obj [("a", deepNest m)]) d k = d
    unfold searchForFieldsRecursively
    split
    · rfl
    · show searchFields [("a", deepNest m)] d k = d
      rw [searchFields_cons, searchStep_a]
      show searchRecurse (deepNest m) d k = d
      cases hm : deepNest m with
      | obj f =>
        simp only [searchRecurse]
        rw [← hm]
        exact ih d (k + 1)
      | str s => rfl
      | num x => rfl
      | jbool b => rfl
      | null => rfl

/-- Claim C9.  The generic recursive search is depth-bounded: its result on
any document coincides with its result on the document truncated at the
bound (everything deeper than the cutoff is never inspected), and on a
document nested 1000 objects deep it terminates, returning its input
record unchanged. -/
theorem claim_C9_depth_bound :
    (∀ (v : Json) (d : AadhaarDetails),
      searchForFieldsRecursively v d 0 =
        searchForFieldsRecursively (prune 6 v) d 0) ∧
    searchForFieldsRecursively (deepNest 1000) emptyDetails 0 = emptyDetails := by
  constructor
  · intro v d
    simpa using search_prune v d 0 (by omega)
  · exact search_deepNest 1000 emptyDetails 0

/-! ## The fallback accepts only exactly-12-digit values (claim C10) -/

/-- The identity-number step either keeps the previous candidate or stores
a digit-filtered value of exactly 12 digits. -/
theorem searchStepUid_aad (lk : String) (v : Json) (d : AadhaarDetails) :
    (searchStepUid lk v d).aadhaarNumber = d.aadhaarNumber ∨
    ((searchStepUid lk v d).aadhaarNumber.length = 12 ∧
     (searchStepUid lk v d).aadhaarNumber.toList.all Char.isDigit = true) := by
  unfold searchStepUid
  split
  · split
    · rename_i s
      split
      · rename_i h12
        exact Or.inr ⟨h12, digitsOnly_all_digits s⟩
      · exact Or.inl rfl
    · rename_i n
      split
      · rename_i h12
        exact Or.inr ⟨h12, digitsOnly_all_digits (toString n)⟩
      · exact Or.inl rfl
    · exact Or.inl rfl
  · exact Or.inl rfl

/-- The name step never touches the identity number. -/
theorem searchStepName_aad (lk : String) (v : Json) (d : AadhaarDetails) :
    (searchStepName lk v d).aadhaarNumber = d.aadhaarNumber := by
  unfold searchStepName
  split
  · split
    · split <;> rfl
    · rfl
  · rfl

/-- The birth-date step never touches the identity number. -/
theorem searchStepDob_aad (lk : String) (v : Json) (d : AadhaarDetails) :
    (searchStepDob lk v d).aadhaarNumber = d.aadhaarNumber := by
  unfold searchStepDob
  split
  · split <;> rfl
  · rfl

/-- The gender step never touches the identity number. -/
theorem searchStepGender_aad (lk : String) (v : Json) (d : AadhaarDetails) :
    (searchStepGender lk v d).aadhaarNumber = d.aadhaarNumber := by
  unfold searchStepGender
  split
  · split <;> rfl
  · rfl

/-- A whole loop-body step either keeps the identity number or stores an
exactly-12-digit value. -/
theorem searchStep_aad (key : String) (v : Json) (d : AadhaarDetails) :
    (searchStep key v d).aadhaarNumber = d.aadhaarNumber ∨
    ((searchStep key v d).aadhaarNumber.length = 12 ∧
     (searchStep key v d).aadhaarNumber.toList.all Char.isDigit = true) := by
  simp only [searchStep, searchStepGender_aad, searchStepDob_aad, searchStepName_aad]
  exact searchStepUid_aad (jsToLower key) v d

mutual

/-- The recursive search either keeps the identity number or stores an
exactly-12-digit value. -/
theorem search_aad_inv (v : Json) (d : AadhaarDetails) (k : Nat) :
    (searchForFieldsRecursively v d k).aadhaarNumber = d.aadhaarNumber ∨
    ((searchForFieldsRecursively v d k).aadhaarNumber.length = 12 ∧
     (searchForFieldsRecursively v d k).aadhaarNumber.toList.all Char.isDigit = true) := by
  unfold searchForFieldsRecursively
  split
  · exact Or.inl rfl
  · cases v with
    | obj fs => exact searchFields_aad_inv fs d k
    | str s => exact Or.inl rfl
    | num n => exact Or.inl rfl
    | jbool b => exact Or.inl rfl
    | null => exact Or.inl rfl
termination_by (sizeOf v, 0)

/-- Field-list version of `search_aad_inv`. -/
theorem searchFields_aad_inv (fs : List (String × Json)) (d : AadhaarDetails)
    (k : Nat) :
    (searchFields fs d k).aadhaarNumber = d.aadhaarNumber ∨
    ((searchFields fs d k).aadhaarNumber.length = 12 ∧
     (searchFields fs d k).aadhaarNumber.toList.all Char.isDigit = true) := by
  cases fs with
  | nil => exact Or.inl rfl
  | cons kv rest =>
    obtain ⟨key, v⟩ := kv
    rw [searchFields_cons]
    have h1 := searchStep_aad key v d
    have h2 := searchRecurse_aad_inv v (searchStep key v d) k
    have h3 := searchFields_aad_inv rest (searchRecurse v (searchStep key v d) k) k
    rcases h3 with h3 | h3
    · rw [h3]
      rcases h2 with h2 | h2
      · rw [h2]
        exact h1
      · exact Or.inr h2
    · exact Or.inr h3
termination_by (sizeOf fs, 2)

/-- Recursion-step version of `search_aad_inv`. -/
theorem searchRecurse_aad_inv (v : Json) (d : AadhaarDetails) (k : Nat) :
    (searchRecurse v d k).aadhaarNumber = d.aadhaarNumber ∨
    ((searchRecurse v d k).aadhaarNumber.length = 12 ∧
     (searchRecurse v d k).aadhaarNumber.toList.all Char.isDigit = true) := by
  cases v with
  | obj f =>
    simp only [searchRecurse]
    exact search_aad_inv (Json.obj f) d (k + 1)
  | str s => exact Or.inl rfl
  | num n => exact Or.inl rfl
  | jbool b => exact Or.inl rfl
  | null => exact Or.inl rfl
termination_by (sizeOf v, 1)

end

/-- Claim C10.  The recursive fallback accepts an identity-number candidate
only when its digit-filtered form has exactly 12 digits (in every revision —
the loop body is shared); consequently the vendor-masked `xxxxxxxx0511`,
reachable only through the fallback in `cDocC10`, is extracted by neither
revision, even though its raw length (12) would satisfy the tolerant
post-processing. -/
theorem claim_C10_fallback_requires_exact_12 :
    (∀ (v : Json) (d : AadhaarDetails) (k : Nat),
      (searchForFieldsRecursively v d k).aadhaarNumber = d.aadhaarNumber ∨
      ((searchForFieldsRecursively v d k).aadhaarNumber.length = 12 ∧
       (searchForFieldsRecursively v d k).aadhaarNumber.toList.all Char.isDigit = true)) ∧
    (parseAadhaarTolerant cDocC10).aadhaarNumber = "" ∧
    (parseAadhaarStrict cDocC10).aadhaarNumber = "" ∧
    (digitsOnly "xxxxxxxx0511").length = 4 ∧ ("xxxxxxxx0511").length = 12 :=
  ⟨fun v d k => search_aad_inv v d k, by decide, by decide, by decide, by decide⟩

/-! ## Primary-shape priority (claim C7) -/

/-- Filtering digits of an all-digit string is the identity. -/
theorem digitsOnly_eq_self (s : String) (h : s.toList.all Char.isDigit = true) :
    digitsOnly s = s := by
  have hf : s.toList.filter Char.isDigit = s.toList :=
    List.filter_eq_self.mpr (fun a ha => List.all_eq_true.mp h a ha)
  unfold digitsOnly
  rw [hf]
  cases s
  rfl

/-- Whitespace stripping is idempotent. -/
theorem stripWs_idem (s : String) : stripWs (stripWs s) = stripWs s := by
  unfold stripWs
  have h1 : (String.mk (s.toList.filter fun c => !isJsWhitespace c)).toList =
      s.toList.filter fun c => !isJsWhitespace c := rfl
  rw [h1, List.filter_filter]
  simp [Bool.and_self]

/-- Method 1 on the primary shape fills the name and number from
`Poi.@name` and `@uid` (whatever the rest of `Poi` contributes to the
optional fields). -/
theorem method1_primary (data kyc uidData poi : Json) (uidS nameS : String)
    (hkyc : getTruthy data "KycRes" = some kyc)
    (hud : getTruthy kyc "UidData" = some uidData)
    (huid : getTruthy uidData "@uid" = some (Json.str uidS))
    (hpoi : getTruthy uidData "Poi" = some poi)
    (hname : getTruthy poi "@name" = some (Json.str nameS)) :
    ∃ db g, method1 data emptyDetails =
      ⟨jsTrim (jsToUpper nameS), stripWs uidS, db, g⟩ := by
  simp only [method1, hkyc, hud, huid, hpoi, hname, Json.toStr]
  rcases getTruthy poi "@dob" with _ | dv <;>
    rcases getTruthy poi "@gender" with _ | gv <;>
    exact ⟨_, _, rfl⟩

/-- Method 2 never overwrites non-empty name/number fields. -/
theorem method2_preserves (data : Json) (d : AadhaarDetails)
    (ha : d.aadhaarNumber ≠ "") (hn : d.name ≠ "") :
    (method2 data d).name = d.name ∧ (method2 data d).aadhaarNumber = d.aadhaarNumber := by
  simp only [method2]
  rw [if_neg ha, if_neg hn]
  constructor <;> (repeat' split) <;> rfl

/-- Method 3 is wholly skipped once a number has been extracted. -/
theorem method3_skip (data : Json) (d : AadhaarDetails) (ha : d.aadhaarNumber ≠ "") :
    method3 data d = d := by
  simp only [method3]
  rw [if_neg ha]

/-- Method 4 is wholly skipped once a number has been extracted. -/
theorem method4_skip (data : Json) (d : AadhaarDetails) (ha : d.aadhaarNumber ≠ "") :
    method4 data d = d := by
  simp only [method4]
  rw [if_neg ha]

/-- Method 5 is wholly skipped once a number has been extracted. -/
theorem method5_skip (data : Json) (d : AadhaarDetails) (ha : d.aadhaarNumber ≠ "") :
    method5 data d = d := by
  simp only [method5]
  rw [if_neg ha]

/-- Method 6 is wholly skipped once a number has been extracted. -/
theorem method6_skip (data : Json) (d : AadhaarDetails) (ha : d.aadhaarNumber ≠ "") :
    method6 data d = d := by
  simp only [method6]
  rw [if_neg ha]

/-- On the primary shape, methods 2–7 never touch the name and number
method 1 extracted. -/
theorem parseMethods_primary (data kyc uidData poi : Json) (uidS nameS : String)
    (hkyc : getTruthy data "KycRes" = some kyc)
    (hud : getTruthy kyc "UidData" = some uidData)
    (huid : getTruthy uidData "@uid" = some (Json.str uidS))
    (hpoi : getTruthy uidData "Poi" = some poi)
    (hname : getTruthy poi "@name" = some (Json.str nameS))
    (hu : stripWs uidS ≠ "") (hn : jsTrim (jsToUpper nameS) ≠ "") :
    (parseMethods data).name = jsTrim (jsToUpper nameS) ∧
    (parseMethods data).aadhaarNumber = stripWs uidS := by
  obtain ⟨db, g, h1⟩ :=
    method1_primary data kyc uidData poi uidS nameS hkyc hud huid hpoi hname
  have h2 := method2_preserves data ⟨jsTrim (jsToUpper nameS), stripWs uidS, db, g⟩ hu hn
  have h2a : (method2 data ⟨jsTrim (jsToUpper nameS), stripWs uidS, db, g⟩).aadhaarNumber
      ≠ "" := by
    rw [h2.2]
    exact hu
  simp only [parseMethods, h1]
  rw [method3_skip data _ h2a, method4_skip data _ h2a, method5_skip data _ h2a,
    method6_skip data _ h2a, if_neg (by simp [h2.1, h2.2, hu, hn])]
  exact ⟨h2.1, h2.2⟩

/-- The strict post-processing cleans a non-empty name. -/
theorem postProcessStrict_name (d : AadhaarDetails) (hname : d.name ≠ "") :
    (postProcessStrict d).name = jsNameCleanup d.name := by
  simp only [postProcessStrict]
  repeat' split
  all_goals simp [hname]

/-- The tolerant post-processing cleans a non-empty name. -/
theorem postProcessTolerant_name (d : AadhaarDetails) (hname : d.name ≠ "") :
    (postProcessTolerant d).name = jsNameCleanup d.name := by
  simp only [postProcessTolerant]
  repeat' split
  all_goals simp [hname]

/-- Claim C7, counterexample.  For the primary-shape document with
`@name "jane  doe"` (double space), extraction returns fullName
`"JANE DOE"` — the clean-up collapses the whitespace run — which differs
from `uppercase(N) = "JANE  DOE"` as the claim states it. -/
theorem claim_C7_counterexample :
    extractStrict cDocC7 = Except.ok ⟨"JANE DOE", "123456789012", "", ""⟩ ∧
    jsToUpper "jane  doe" = "JANE  DOE" ∧
    ("JANE DOE" : String) ≠ "JANE  DOE" :=
  ⟨rfl, by decide, by decide⟩

/-- Claim C7, amended.  For every document carrying the primary
`KycRes.UidData` shape with a name `N` under `Poi.@name` and a 12-digit
(possibly space-separated) number under `@uid`, both revisions return
identityNumber equal to the number with spaces removed and fullName equal
to the cleaned-up uppercase of `N` (non-word characters stripped,
whitespace collapsed, trimmed — which is `uppercase(N)` whenever `N` is
already a plain single-spaced name), regardless of which alternate-shape
fields are also present: methods 2–7 only fill still-empty fields and
never overwrite method 1's values. -/
theorem claim_C7_primary_shape_priority (data kyc uidData poi : Json)
    (uidS nameS : String)
    (hkyc : getTruthy data "KycRes" = some kyc)
    (hud : getTruthy kyc "UidData" = some uidData)
    (huid : getTruthy uidData "@uid" = some (Json.str uidS))
    (hpoi : getTruthy uidData "Poi" = some poi)
    (hname : getTruthy poi "@name" = some (Json.str nameS))
    (h12 : (stripWs uidS).length = 12)
    (hdig : (stripWs uidS).toList.all Char.isDigit = true)
    (hn : jsTrim (jsToUpper nameS) ≠ "") :
    ((parseAadhaarStrict data).name = jsNameCleanup (jsTrim (jsToUpper nameS)) ∧
     (parseAadhaarStrict data).aadhaarNumber = stripWs uidS) ∧
    ((parseAadhaarTolerant data).name = jsNameCleanup (jsTrim (jsToUpper nameS)) ∧
     (parseAadhaarTolerant data).aadhaarNumber = stripWs uidS) := by
  have hu : stripWs uidS ≠ "" := by
    intro h
    rw [h] at h12
    simp at h12
  have hpm :=
    parseMethods_primary data kyc uidData poi uidS nameS hkyc hud huid hpoi hname hu hn
  have hpmn : (parseMethods data).name ≠ "" := by
    rw [hpm.1]
    exact hn
  have hpma : (parseMethods data).aadhaarNumber ≠ "" := by
    rw [hpm.2]
    exact hu
  refine ⟨⟨?_, ?_⟩, ⟨?_, ?_⟩⟩
  · rw [show parseAadhaarStrict data = postProcessStrict (parseMethods data) from rfl,
      postProcessStrict_name _ hpmn, hpm.1]
  · rw [show parseAadhaarStrict data = postProcessStrict (parseMethods data) from rfl,
      postProcessStrict_aadhaar _ hpma, hpm.2, digitsOnly_eq_self _ hdig, if_pos h12]
  · rw [show parseAadhaarTolerant data = postProcessTolerant (parseMethods data) from rfl,
      postProcessTolerant_name _ hpmn, hpm.1]
  · rw [show parseAadhaarTolerant data = postProcessTolerant (parseMethods data) from rfl,
      postProcessTolerant_aadhaar _ hpma, hpm.2, stripWs_idem, if_pos (by omega)]

/-- The `KycRes` object of `cDocC7`. -/
def cKycC7 : Json :=
  .obj [("UidData", .obj [
    ("@uid", .str "1234 5678 9012"),
    ("Poi", .obj [("@name", .str "jane  doe")])])]

/-- The `UidData` object of `cDocC7`. -/
def cUidDataC7 : Json :=
  .obj [("@uid", .str "1234 5678 9012"),
        ("Poi", .obj [("@name", .str "jane  doe")])]

/-- The `Poi` object of `cDocC7`. -/
def cPoiC7 : Json := .obj [("@name", .str "jane  doe")]

/-- Claim C7, witness: the priority theorem applied to `cDocC7`. -/
theorem claim_C7_witness :
    getTruthy cDocC7 "KycRes" = some cKycC7 ∧
    getTruthy cKycC7 "UidData" = some cUidDataC7 ∧
    getTruthy cUidDataC7 "@uid" = some (Json.str "1234 5678 9012") ∧
    getTruthy cUidDataC7 "Poi" = some cPoiC7 ∧
    getTruthy cPoiC7 "@name" = some (Json.str "jane  doe") ∧
    (((parseAadhaarStrict cDocC7).name =
        jsNameCleanup (jsTrim (jsToUpper "jane  doe")) ∧
      (parseAadhaarStrict cDocC7).aadhaarNumber = stripWs "1234 5678 9012") ∧
     ((parseAadhaarTolerant cDocC7).name =
        jsNameCleanup (jsTrim (jsToUpper "jane  doe")) ∧
      (parseAadhaarTolerant cDocC7).aadhaarNumber = stripWs "1234 5678 9012")) :=
  ⟨rfl, rfl, rfl, rfl, rfl,
    claim_C7_primary_shape_priority cDocC7 cKycC7 cUidDataC7 cPoiC7
      "1234 5678 9012" "jane  doe" rfl rfl rfl rfl rfl
      (by decide) (by decide) (by decide)⟩

end OfflineSafe
